import Mathlib

/-!
Verification of the `ImageProcessor` class (tiny-image-uploader).

The embedding models the dimension arithmetic of the class over `ℚ`
(JavaScript numbers, whose operations here are exact on the inputs of
interest), pixel contents symbolically as a trace of the transformations
applied, and the session state (`originalImage`, `selectedImage`,
`_isLoading`) as an explicit record.  JavaScript truthiness of optional
numeric arguments (`x || y`, `x ? a : b`) is modelled explicitly, since
the class relies on `0` being falsy.
-/

namespace ImageUploader

/-- JS truthiness of an optional number: `undefined` and `0` are falsy. -/
def jsTruthy : Option ℚ → Prop
  | none => False
  | some x => x ≠ 0

instance (a : Option ℚ) : Decidable (jsTruthy a) :=
  match a with
  | none => isFalse id
  | some x => if hx : x = 0 then isFalse fun hc => hc hx else isTrue hx

@[simp] theorem jsTruthy_none : jsTruthy none ↔ False := Iff.rfl

@[simp] theorem jsTruthy_some (x : ℚ) : jsTruthy (some x) ↔ x ≠ 0 := Iff.rfl

/-- JS `a || b` for an optional number `a`: falls through on `undefined` and `0`. -/
def jsOr (a : Option ℚ) (b : ℚ) : ℚ :=
  match a with
  | none => b
  | some x => if x = 0 then b else x

@[simp] theorem jsOr_none (b : ℚ) : jsOr none b = b := rfl

theorem jsOr_some (x b : ℚ) : jsOr (some x) b = if x = 0 then b else x := rfl

/-- The constructor stores `maxFileSize || null`, `maxWidth || null`,
`maxHeight || null`: a configured `0` is stored as `null` (unset). -/
def mkMax : Option ℚ → Option ℚ
  | none => none
  | some v => if v = 0 then none else some v

/-- `isValidFileSize`: `this.maxFileSize ? file.size <= this.maxFileSize : true`. -/
def isValidFileSize (maxFileSize : Option ℚ) (size : ℚ) : Bool :=
  if jsTruthy maxFileSize then decide (size ≤ maxFileSize.getD 0) else true

/-- Symbolic pixel content of a raster: either the decode of a source file,
or the result of resampling / cropping an earlier content. -/
inductive Pix where
  | src (id : ℕ)
  | resampled (p : Pix) (w h : ℚ)
  | cropped (p : Pix) (top left w h : ℚ)
deriving DecidableEq

/-- An in-memory raster: dimensions plus symbolic pixel content. -/
structure Img where
  width : ℚ
  height : ℚ
  pix : Pix
deriving DecidableEq

/-- `cloneImage`/`createImage(img.src)`: a fresh image decoded from the same
source data, hence with the same dimensions and pixel content. -/
def cloneImage (img : Img) : Img :=
  ⟨img.width, img.height, img.pix⟩

/-- The target-resolution part of `resizeImageIfNeeded` (before the max
clamps): `width = targetWidth || img.width`, `height = targetHeight ||
img.height`, then the `maintainAspectRatio` branch chain. -/
def resolveTarget (imgW imgH : ℚ) (targetWidth targetHeight : Option ℚ)
    (mar : Bool) : ℚ × ℚ :=
  let width := jsOr targetWidth imgW
  let height := jsOr targetHeight imgH
  let aspectRatio := imgW / imgH
  if mar then
    if jsTruthy targetWidth ∧ jsTruthy targetHeight then
      let ratio := min (targetWidth.getD 0 / imgW) (targetHeight.getD 0 / imgH)
      (imgW * ratio, imgH * ratio)
    else if jsTruthy targetWidth then
      (width, targetWidth.getD 0 / aspectRatio)
    else if jsTruthy targetHeight then
      (targetHeight.getD 0 * aspectRatio, height)
    else
      (width, height)
  else
    (width, height)

/-- `if (this.maxWidth && width > this.maxWidth) { width = this.maxWidth;
height = maintainAspectRatio ? width / aspectRatio : height; }`. -/
def clampWidth (maxW : Option ℚ) (aspectRatio : ℚ) (mar : Bool)
    (wh : ℚ × ℚ) : ℚ × ℚ :=
  if jsTruthy maxW ∧ maxW.getD 0 < wh.1 then
    (maxW.getD 0, if mar then maxW.getD 0 / aspectRatio else wh.2)
  else wh

/-- `if (this.maxHeight && height > this.maxHeight) { height = this.maxHeight;
width = maintainAspectRatio ? height * aspectRatio : width; }`. -/
def clampHeight (maxH : Option ℚ) (aspectRatio : ℚ) (mar : Bool)
    (wh : ℚ × ℚ) : ℚ × ℚ :=
  if jsTruthy maxH ∧ maxH.getD 0 < wh.2 then
    (if mar then maxH.getD 0 * aspectRatio else wh.1, maxH.getD 0)
  else wh

/-- The dimension computation of `resizeImageIfNeeded` (lines 251-275):
resolve the target, then the width clamp, then the height clamp, in
source order. -/
def resolveDims (maxW maxH : Option ℚ) (imgW imgH : ℚ)
    (tW tH : Option ℚ) (mar : Bool) : ℚ × ℚ :=
  clampHeight maxH (imgW / imgH) mar
    (clampWidth maxW (imgW / imgH) mar (resolveTarget imgW imgH tW tH mar))

/-- One execution of the `step` closure body of `stepDownImage`: compute
`ratio = max(currentWidth/targetWidth, currentHeight/targetHeight)`; if
`ratio <= 2` snap to the target, otherwise halve (floored) but not below
the target. -/
def stepDownStep (targetWidth targetHeight w h : ℚ) : ℚ × ℚ :=
  if max (w / targetWidth) (h / targetHeight) ≤ 2 then (targetWidth, targetHeight)
  else (max ((⌊w / 2⌋ : ℤ) : ℚ) targetWidth, max ((⌊h / 2⌋ : ℤ) : ℚ) targetHeight)

/-- The `step` loop of `stepDownImage`, fuelled: runs `stepDownStep`, then
exits when `currentWidth === targetWidth && currentHeight === targetHeight`,
else re-schedules itself.  `none` means the fuel ran out before the loop
exited. -/
def stepDownRun (targetWidth targetHeight : ℚ) : ℚ → ℚ → ℕ → Option (ℚ × ℚ)
  | _, _, 0 => none
  | w, h, n + 1 =>
    let wh := stepDownStep targetWidth targetHeight w h
    if wh = (targetWidth, targetHeight) then some wh
    else stepDownRun targetWidth targetHeight wh.1 wh.2 n

/-- Fuel sufficient for `stepDownRun` to exit (proved below). -/
def stepDownFuel (w h targetWidth targetHeight : ℚ) : ℕ :=
  (⌈max (w / targetWidth) (h / targetHeight)⌉).toNat + 1

/-- The output dimensions of `stepDownImage`. -/
def stepDownDims (w h targetWidth targetHeight : ℚ) : ℚ × ℚ :=
  (stepDownRun targetWidth targetHeight w h
    (stepDownFuel w h targetWidth targetHeight)).getD (targetWidth, targetHeight)

/-- `resizeImageIfNeeded` (lines 250-282): resolve the dimensions; scale via
`stepDownImage` when the change exceeds the 1-pixel tolerance, else return
the image unchanged. -/
def resizeImageIfNeeded (maxW maxH : Option ℚ) (img : Img)
    (tW tH : Option ℚ) (mar : Bool) : Img :=
  let wh := resolveDims maxW maxH img.width img.height tW tH mar
  if 1 < |wh.1 - img.width| ∨ 1 < |wh.2 - img.height| then
    let f := stepDownDims img.width img.height wh.1 wh.2
    ⟨f.1, f.2, Pix.resampled img.pix f.1 f.2⟩
  else img

/-- The mutable state of an `ImageProcessor` instance that the claims are
about: `originalImage`, `selectedImage` and `_isLoading` (the canvas is
scratch space reinitialised from `selectedImage` and carries no state of
its own across operations). -/
structure Session where
  original : Option Img
  selected : Option Img
  loading : Bool
deriving DecidableEq

/-- Outcome of `resizeImage`: `null` without a selection, `null` with a
warning while loading, the `InvalidArguments` throw, or the new image. -/
inductive ResizeResult where
  | noSelection
  | loadingWarn
  | invalidArgs
  | resized (img : Img)
deriving DecidableEq

/-- `resizeImage({width, height, maintainAspectRatio})` (lines 115-147):
guards in source order, then `targetWidth = width !== undefined ? width :
currentWidth` (same for height), then `resizeImageIfNeeded`, then the
single assignment to `selectedImage`. -/
def resizeImage (maxW maxH : Option ℚ) (st : Session)
    (width height : Option ℚ) (mar : Bool) : Session × ResizeResult :=
  match st.selected with
  | none => (st, .noSelection)
  | some img =>
    if st.loading then (st, .loadingWarn)
    else if width = none ∧ height = none then (st, .invalidArgs)
    else
      let targetWidth := width.getD img.width
      let targetHeight := height.getD img.height
      let resizedImg :=
        resizeImageIfNeeded maxW maxH img (some targetWidth) (some targetHeight) mar
      ({ st with selected := some resizedImg }, .resized resizedImg)

/-- Outcome of `cropImage`: the two guard throws, a failure of the
re-encode/decode round trip (`createImage` rejecting), or the new image. -/
inductive CropResult where
  | errNoSelection
  | errLoading
  | errEncode
  | cropped (img : Img)
deriving DecidableEq

/-- `cropImage({top, left, width, height})` (lines 149-178): guards, then
`cropWidth = min(width, selected.width - left)`, `cropHeight = min(height,
selected.height - top)`, extraction and re-encode, then the single
assignment to `selectedImage`.  `encodeOk` injects the only mid-pipeline
failure point (the decode of the re-encoded data URL). -/
def cropImage (st : Session) (top left width height : ℚ)
    (encodeOk : Bool) : Session × CropResult :=
  match st.selected with
  | none => (st, .errNoSelection)
  | some img =>
    if st.loading then (st, .errLoading)
    else
      let cropWidth := min width (img.width - left)
      let cropHeight := min height (img.height - top)
      if encodeOk then
        let c : Img := ⟨cropWidth, cropHeight,
          Pix.cropped img.pix top left cropWidth cropHeight⟩
        ({ st with selected := some c }, .cropped c)
      else (st, .errEncode)

/-- Outcome of `restoreOriginalImage`: `null` with a warning when no
original exists, a clone failure, or the restored image. -/
inductive RestoreResult where
  | nullNoOriginal
  | errClone
  | restored (img : Img)
deriving DecidableEq

/-- `restoreOriginalImage` (lines 180-188): warn-and-return-null without an
original; otherwise clone the original and assign it to `selectedImage`.
`cloneOk` injects the clone (`createImage`) failure point, which occurs
before the assignment. -/
def restoreOriginalImage (st : Session) (cloneOk : Bool) :
    Session × RestoreResult :=
  match st.original with
  | none => (st, .nullNoOriginal)
  | some o =>
    if cloneOk then
      ({ st with selected := some (cloneImage o) }, .restored (cloneImage o))
    else (st, .errClone)

/-- Errors signalled by `selectImage`. -/
inductive SelectErr where
  | fileTooLarge
  | cloneFailed
deriving DecidableEq

/-- Observable effects of `selectImage`, in execution order. -/
inductive SelectEvent where
  | decode
  | assignSelected
  | assignOriginal
deriving DecidableEq

/-- `selectImage` (lines 94-109): set `_isLoading`, size-check the file,
then `this.selectedImage = await this.loadImage(file)` (decode plus the
initial `resizeImageIfNeeded` with `maintainAspectRatio: true` and no
targets), then `this.originalImage = await this.cloneImage(...)` — two
separate assignments with an await between them; `finally` clears
`_isLoading`.  `raw` is the image the decode collaborator produces for the
file; `cloneOk` injects a failure of the clone step.  Returns the final
state, the error if any, and the events that occurred. -/
def selectImage (maxFileSize maxW maxH : Option ℚ) (st : Session)
    (fileSize : ℚ) (raw : Img) (cloneOk : Bool) :
    Session × Option SelectErr × List SelectEvent :=
  let st1 : Session := { st with loading := true }
  if isValidFileSize maxFileSize fileSize then
    let decoded := resizeImageIfNeeded maxW maxH raw none none true
    let st2 : Session := { st1 with selected := some decoded }
    if cloneOk then
      ({ st2 with original := some (cloneImage decoded), loading := false },
        none, [.decode, .assignSelected, .assignOriginal])
    else
      ({ st2 with loading := false }, some .cloneFailed, [.decode, .assignSelected])
  else
    ({ st1 with loading := false }, some .fileTooLarge, [])

/-- A mutating call on a ready session, as used by the restore claim: a
`resizeImage` or a `cropImage` call with its arguments. -/
inductive SessionOp where
  | resize (width height : Option ℚ) (mar : Bool)
  | crop (top left width height : ℚ) (encodeOk : Bool)
deriving DecidableEq

/-- Apply one `resizeImage`/`cropImage` call, keeping the resulting state. -/
def applyOp (maxW maxH : Option ℚ) (st : Session) : SessionOp → Session
  | .resize w h mar => (resizeImage maxW maxH st w h mar).1
  | .crop t l w h ok => (cropImage st t l w h ok).1

/-- Apply a finite sequence of `resizeImage`/`cropImage` calls. -/
def applyOps (maxW maxH : Option ℚ) (st : Session) (ops : List SessionOp) : Session :=
  ops.foldl (applyOp maxW maxH) st

/-- A concrete 100×100 raster decoded from file 0, used as test input. -/
def img100 : Img := ⟨100, 100, Pix.src 0⟩

/-- A concrete 10×10 raster decoded from file 1, used as test input. -/
def imgB : Img := ⟨10, 10, Pix.src 1⟩

/-- A ready session holding `img100` as both original and selected. -/
def st100 : Session := ⟨some img100, some img100, false⟩

/-- A concrete sequence of one resize and one crop call. -/
def ops0 : List SessionOp :=
  [SessionOp.resize (some 100) (some 100) false, SessionOp.crop 0 0 100 100 true]

/-- The raster `cropImage({top: -10, left: 0, width: 50, height: 50})`
produces from `img100`. -/
def cropNeg : Img := ⟨50, 50, Pix.cropped (Pix.src 0) (-10) 0 50 50⟩

/-- The raster `resizeImage({width: 0, height: 200, maintainAspectRatio:
true})` produces from `img100`: the zero width is falsy, so the height
drives the aspect chain and the image is upscaled to 200×200. -/
def img200 : Img := ⟨200, 200, Pix.resampled (Pix.src 0) 200 200⟩

/-! ## Lemmas about the progressive scaler -/

theorem stepDownRun_add_one (tW tH w h : ℚ) (n : ℕ) :
    stepDownRun tW tH w h (n + 1) =
      if stepDownStep tW tH w h = (tW, tH) then some (stepDownStep tW tH w h)
      else stepDownRun tW tH (stepDownStep tW tH w h).1 (stepDownStep tW tH w h).2 n :=
  rfl

/-- Whenever the `stepDownImage` loop exits, the dimensions it exits with
are exactly the requested target. -/
theorem stepDownRun_some (tW tH : ℚ) :
    ∀ (n : ℕ) (w h : ℚ) (p : ℚ × ℚ),
      stepDownRun tW tH w h n = some p → p = (tW, tH) := by
  intro n
  induction n with
  | zero =>
    intro w h p hp
    simp [stepDownRun] at hp
  | succ k ih =>
    intro w h p hp
    rw [stepDownRun_add_one] at hp
    split_ifs at hp with hc
    · injection hp with h2
      exact h2 ▸ hc
    · exact ih _ _ _ hp

/-- While the halving branch is taken, the ratio `max(w/tW, h/tH)` at least
halves in one step. -/
theorem stepDownStep_ratio_le (tW tH : ℚ) (htW : 0 < tW) (htH : 0 < tH)
    (w h : ℚ) (hr : 2 < max (w / tW) (h / tH)) :
    max ((stepDownStep tW tH w h).1 / tW) ((stepDownStep tW tH w h).2 / tH)
      ≤ max (w / tW) (h / tH) / 2 := by
  have hnr : ¬ max (w / tW) (h / tH) ≤ 2 := not_le.mpr hr
  set r := max (w / tW) (h / tH) with hrdef
  simp only [stepDownStep, if_neg hnr]
  apply max_le
  · rw [div_le_iff₀ htW]
    apply max_le
    · have h1 : ((⌊w / 2⌋ : ℤ) : ℚ) ≤ w / 2 := Int.floor_le _
      have h2 : w ≤ r * tW := by
        rw [← div_le_iff₀ htW]
        exact le_max_left _ _
      linarith
    · nlinarith
  · rw [div_le_iff₀ htH]
    apply max_le
    · have h1 : ((⌊h / 2⌋ : ℤ) : ℚ) ≤ h / 2 := Int.floor_le _
      have h2 : h ≤ r * tH := by
        rw [← div_le_iff₀ htH]
        exact le_max_right _ _
      linarith
    · nlinarith

/-- With positive targets, fuel `n + 1` suffices whenever the initial ratio
is at most `2 ^ (n + 1)`: the loop exits with exactly the target. -/
theorem stepDownRun_sufficient (tW tH : ℚ) (htW : 0 < tW) (htH : 0 < tH) :
    ∀ (n : ℕ) (w h : ℚ), max (w / tW) (h / tH) ≤ 2 ^ (n + 1) →
      stepDownRun tW tH w h (n + 1) = some (tW, tH) := by
  intro n
  induction n with
  | zero =>
    intro w h hr
    rw [pow_one] at hr
    have hstep : stepDownStep tW tH w h = (tW, tH) := by
      unfold stepDownStep
      exact if_pos hr
    rw [stepDownRun_add_one, hstep, if_pos rfl]
  | succ k ih =>
    intro w h hr
    by_cases h2 : max (w / tW) (h / tH) ≤ 2
    · have hstep : stepDownStep tW tH w h = (tW, tH) := by
        unfold stepDownStep
        exact if_pos h2
      rw [stepDownRun_add_one, hstep, if_pos rfl]
    · push_neg at h2
      have hdec := stepDownStep_ratio_le tW tH htW htH w h h2
      rw [stepDownRun_add_one]
      by_cases heq : stepDownStep tW tH w h = (tW, tH)
      · rw [if_pos heq, heq]
      · rw [if_neg heq]
        apply ih
        calc max ((stepDownStep tW tH w h).1 / tW) ((stepDownStep tW tH w h).2 / tH)
            ≤ max (w / tW) (h / tH) / 2 := hdec
          _ ≤ 2 ^ (k + 1 + 1) / 2 := by linarith
          _ = 2 ^ (k + 1) := by
              rw [pow_succ]
              ring

/-- The fuel `stepDownFuel` always suffices: with positive targets the
`stepDownImage` loop terminates, with exactly the target dimensions. -/
theorem stepDownRun_fuel (w h tW tH : ℚ) (htW : 0 < tW) (htH : 0 < tH) :
    stepDownRun tW tH w h (stepDownFuel w h tW tH) = some (tW, tH) := by
  unfold stepDownFuel
  apply stepDownRun_sufficient tW tH htW htH
  set r := max (w / tW) (h / tH) with hrdef
  have h1 : r ≤ (⌈r⌉ : ℚ) := Int.le_ceil r
  rcases le_or_lt (⌈r⌉) 0 with hc | hc
  · have hr0 : r ≤ 0 := le_trans h1 (by exact_mod_cast hc)
    have hpos : (0:ℚ) < 2 ^ ((⌈r⌉).toNat + 1) := by positivity
    linarith
  · have htn : ((⌈r⌉).toNat : ℤ) = ⌈r⌉ := Int.toNat_of_nonneg hc.le
    have h2 : ((⌈r⌉).toNat : ℚ) = (⌈r⌉ : ℚ) := by exact_mod_cast htn
    have h3 : ((⌈r⌉).toNat : ℚ) ≤ 2 ^ (⌈r⌉).toNat := by
      have hlt := Nat.lt_two_pow (⌈r⌉).toNat
      exact_mod_cast hlt.le
    have h4 : (2:ℚ) ^ (⌈r⌉).toNat ≤ 2 ^ ((⌈r⌉).toNat + 1) := by
      have hp : (0:ℚ) < 2 ^ (⌈r⌉).toNat := by positivity
      rw [pow_succ]
      nlinarith
    linarith [h2 ▸ h3]

/-- With positive targets, `stepDownImage` outputs exactly the target. -/
theorem stepDownDims_eq (w h tW tH : ℚ) (htW : 0 < tW) (htH : 0 < tH) :
    stepDownDims w h tW tH = (tW, tH) := by
  unfold stepDownDims
  rw [stepDownRun_fuel w h tW tH htW htH]
  rfl

/-! ## Concrete evaluations of the scaler steps -/

theorem sds_4000_3000 : stepDownStep 100 100 4000 3000 = (2000, 1500) := by
  have hz1 : ⌊(4000:ℚ)/2⌋ = (2000:ℤ) := Int.floor_eq_iff.mpr (by constructor <;> norm_num)
  have hz2 : ⌊(3000:ℚ)/2⌋ = (1500:ℤ) := Int.floor_eq_iff.mpr (by constructor <;> norm_num)
  unfold stepDownStep
  rw [if_neg (by push_neg; rw [lt_max_iff]; left; norm_num), hz1, hz2]
  push_cast
  rw [max_eq_left (show (100:ℚ) ≤ 2000 by norm_num),
    max_eq_left (show (100:ℚ) ≤ 1500 by norm_num)]

theorem sds_2000_1500 : stepDownStep 100 100 2000 1500 = (1000, 750) := by
  have hz1 : ⌊(2000:ℚ)/2⌋ = (1000:ℤ) := Int.floor_eq_iff.mpr (by constructor <;> norm_num)
  have hz2 : ⌊(1500:ℚ)/2⌋ = (750:ℤ) := Int.floor_eq_iff.mpr (by constructor <;> norm_num)
  unfold stepDownStep
  rw [if_neg (by push_neg; rw [lt_max_iff]; left; norm_num), hz1, hz2]
  push_cast
  rw [max_eq_left (show (100:ℚ) ≤ 1000 by norm_num),
    max_eq_left (show (100:ℚ) ≤ 750 by norm_num)]

theorem sds_1000_750 : stepDownStep 100 100 1000 750 = (500, 375) := by
  have hz1 : ⌊(1000:ℚ)/2⌋ = (500:ℤ) := Int.floor_eq_iff.mpr (by constructor <;> norm_num)
  have hz2 : ⌊(750:ℚ)/2⌋ = (375:ℤ) := Int.floor_eq_iff.mpr (by constructor <;> norm_num)
  unfold stepDownStep
  rw [if_neg (by push_neg; rw [lt_max_iff]; left; norm_num), hz1, hz2]
  push_cast
  rw [max_eq_left (show (100:ℚ) ≤ 500 by norm_num),
    max_eq_left (show (100:ℚ) ≤ 375 by norm_num)]

theorem sds_500_375 : stepDownStep 100 100 500 375 = (250, 187) := by
  have hz1 : ⌊(500:ℚ)/2⌋ = (250:ℤ) := Int.floor_eq_iff.mpr (by constructor <;> norm_num)
  have hz2 : ⌊(375:ℚ)/2⌋ = (187:ℤ) := Int.floor_eq_iff.mpr (by constructor <;> norm_num)
  unfold stepDownStep
  rw [if_neg (by push_neg; rw [lt_max_iff]; left; norm_num), hz1, hz2]
  push_cast
  rw [max_eq_left (show (100:ℚ) ≤ 250 by norm_num),
    max_eq_left (show (100:ℚ) ≤ 187 by norm_num)]

theorem sds_250_187 : stepDownStep 100 100 250 187 = (125, 100) := by
  have hz1 : ⌊(250:ℚ)/2⌋ = (125:ℤ) := Int.floor_eq_iff.mpr (by constructor <;> norm_num)
  have hz2 : ⌊(187:ℚ)/2⌋ = (93:ℤ) := Int.floor_eq_iff.mpr (by constructor <;> norm_num)
  unfold stepDownStep
  rw [if_neg (by push_neg; rw [lt_max_iff]; left; norm_num), hz1, hz2]
  push_cast
  rw [max_eq_left (show (100:ℚ) ≤ 125 by norm_num),
    max_eq_right (show (93:ℚ) ≤ 100 by norm_num)]

theorem sds_250_188 : stepDownStep 100 100 250 188 = (125, 100) := by
  have hz1 : ⌊(250:ℚ)/2⌋ = (125:ℤ) := Int.floor_eq_iff.mpr (by constructor <;> norm_num)
  have hz2 : ⌊(188:ℚ)/2⌋ = (94:ℤ) := Int.floor_eq_iff.mpr (by constructor <;> norm_num)
  unfold stepDownStep
  rw [if_neg (by push_neg; rw [lt_max_iff]; left; norm_num), hz1, hz2]
  push_cast
  rw [max_eq_left (show (100:ℚ) ≤ 125 by norm_num),
    max_eq_right (show (94:ℚ) ≤ 100 by norm_num)]

theorem sds_125_100 : stepDownStep 100 100 125 100 = (100, 100) := by
  unfold stepDownStep
  exact if_pos (by rw [max_le_iff]; constructor <;> norm_num)

/-! ## Claim C1 -/

/-- C1 counterexample: a 50×50 source with target 100×100 is at most the
target in both dimensions, yet `stepDownImage` does not return it as-is —
the loop body runs and the output is the (larger) target 100×100.  The
component upscales; it does not only shrink. -/
theorem stepDownImage_small_source_counterexample :
    stepDownDims 50 50 100 100 = (100, 100) ∧
      stepDownDims 50 50 100 100 ≠ (50, 50) := by
  have he : stepDownDims 50 50 100 100 = (100, 100) :=
    stepDownDims_eq 50 50 100 100 (by norm_num) (by norm_num)
  refine ⟨he, ?_⟩
  rw [he]
  norm_num [Prod.ext_iff]

/-- C1 (amended): for positive resolved targets the `stepDownImage` loop
always terminates; whenever it exits, the dimensions are exactly the
requested target; and when the source is already at most the target in
both dimensions, the loop body runs exactly once (the ratio is at most 2,
so it snaps immediately) and the output is the target — so the component
resamples to the target even then, upscaling when the target exceeds the
source rather than returning the source as-is. -/
theorem stepDownImage_terminates_exact_target (w h tW tH : ℚ)
    (htW : 0 < tW) (htH : 0 < tH) :
    (∃ n, stepDownRun tW tH w h n = some (tW, tH)) ∧
    (∀ n p, stepDownRun tW tH w h n = some p → p = (tW, tH)) ∧
    (w ≤ tW → h ≤ tH → stepDownRun tW tH w h 1 = some (tW, tH)) := by
  refine ⟨⟨stepDownFuel w h tW tH, stepDownRun_fuel w h tW tH htW htH⟩,
    fun n p hp => stepDownRun_some tW tH n w h p hp, fun hw hh => ?_⟩
  have hr : max (w / tW) (h / tH) ≤ 2 := by
    apply max_le
    · have h1 : w / tW ≤ 1 := by
        rw [div_le_one htW]
        exact hw
      linarith
    · have h1 : h / tH ≤ 1 := by
        rw [div_le_one htH]
        exact hh
      linarith
  have hstep : stepDownStep tW tH w h = (tW, tH) := by
    unfold stepDownStep
    exact if_pos hr
  show stepDownRun tW tH w h (0 + 1) = some (tW, tH)
  rw [stepDownRun_add_one, hstep, if_pos rfl]

/-- C1 witness: the amended claim at source 800×600, target 30×20. -/
theorem stepDownImage_terminates_exact_target_witness :
    (∃ n, stepDownRun 30 20 800 600 n = some (30, 20)) ∧
    (∀ n p, stepDownRun 30 20 800 600 n = some p → p = (30, 20)) ∧
    ((800:ℚ) ≤ 30 → (600:ℚ) ≤ 20 → stepDownRun 30 20 800 600 1 = some (30, 20)) :=
  stepDownImage_terminates_exact_target 800 600 30 20 (by norm_num) (by norm_num)

/-! ## Claim C9 -/

/-- C9 counterexample: from the intermediate state ≈250×188 (really
250×187; also checked at 250×188) the loop does not snap to 100×100 —
the ratio there is 2.5 > 2, so one more halving step to 125×100 occurs
first. -/
theorem stepDownImage_no_snap_from_250 :
    stepDownStep 100 100 250 187 = (125, 100) ∧
      stepDownStep 100 100 250 188 = (125, 100) ∧
      ((125:ℚ), (100:ℚ)) ≠ ((100:ℚ), (100:ℚ)) := by
  refine ⟨sds_250_187, sds_250_188, ?_⟩
  norm_num [Prod.ext_iff]

/-- C9 (amended): source 4000×3000 with target 100×100 yields exactly
100×100, via the intermediate dimensions 2000×1500, 1000×750, 500×375,
250×187, 125×100, and only then the snap to 100×100 (six loop iterations;
five are not enough). -/
theorem stepDownImage_trace_4000_3000 :
    stepDownStep 100 100 4000 3000 = (2000, 1500) ∧
    stepDownStep 100 100 2000 1500 = (1000, 750) ∧
    stepDownStep 100 100 1000 750 = (500, 375) ∧
    stepDownStep 100 100 500 375 = (250, 187) ∧
    stepDownStep 100 100 250 187 = (125, 100) ∧
    stepDownStep 100 100 125 100 = (100, 100) ∧
    stepDownRun 100 100 4000 3000 6 = some (100, 100) ∧
    stepDownRun 100 100 4000 3000 5 = none ∧
    stepDownDims 4000 3000 100 100 = (100, 100) := by
  have hne : ∀ a b : ℚ, (100 < a) → ((a, b) : ℚ × ℚ) ≠ (100, 100) := by
    intro a b ha hc
    rw [Prod.ext_iff] at hc
    simp only [] at hc
    linarith [hc.1]
  refine ⟨sds_4000_3000, sds_2000_1500, sds_1000_750, sds_500_375, sds_250_187,
    sds_125_100, ?_, ?_, stepDownDims_eq 4000 3000 100 100 (by norm_num) (by norm_num)⟩
  · show stepDownRun 100 100 4000 3000 (5 + 1) = some (100, 100)
    rw [stepDownRun_add_one, sds_4000_3000, if_neg (hne 2000 1500 (by norm_num))]
    show stepDownRun 100 100 2000 1500 (4 + 1) = some (100, 100)
    rw [stepDownRun_add_one, sds_2000_1500, if_neg (hne 1000 750 (by norm_num))]
    show stepDownRun 100 100 1000 750 (3 + 1) = some (100, 100)
    rw [stepDownRun_add_one, sds_1000_750, if_neg (hne 500 375 (by norm_num))]
    show stepDownRun 100 100 500 375 (2 + 1) = some (100, 100)
    rw [stepDownRun_add_one, sds_500_375, if_neg (hne 250 187 (by norm_num))]
    show stepDownRun 100 100 250 187 (1 + 1) = some (100, 100)
    rw [stepDownRun_add_one, sds_250_187, if_neg (hne 125 100 (by norm_num))]
    show stepDownRun 100 100 125 100 (0 + 1) = some (100, 100)
    rw [stepDownRun_add_one, sds_125_100, if_pos rfl]
  · show stepDownRun 100 100 4000 3000 (4 + 1) = none
    rw [stepDownRun_add_one, sds_4000_3000, if_neg (hne 2000 1500 (by norm_num))]
    show stepDownRun 100 100 2000 1500 (3 + 1) = none
    rw [stepDownRun_add_one, sds_2000_1500, if_neg (hne 1000 750 (by norm_num))]
    show stepDownRun 100 100 1000 750 (2 + 1) = none
    rw [stepDownRun_add_one, sds_1000_750, if_neg (hne 500 375 (by norm_num))]
    show stepDownRun 100 100 500 375 (1 + 1) = none
    rw [stepDownRun_add_one, sds_500_375, if_neg (hne 250 187 (by norm_num))]
    show stepDownRun 100 100 250 187 (0 + 1) = none
    rw [stepDownRun_add_one, sds_250_187, if_neg (hne 125 100 (by norm_num))]
    rfl

/-! ## Lemmas about the dimension resolver -/

/-- In aspect-ratio mode the resolved target always satisfies
`width = height * (imgW / imgH)`, in every branch of the chain. -/
theorem resolveTarget_aspect (imgW imgH : ℚ) (hW : 0 < imgW) (hH : 0 < imgH)
    (tW tH : Option ℚ) :
    (resolveTarget imgW imgH tW tH true).1 =
      (resolveTarget imgW imgH tW tH true).2 * (imgW / imgH) := by
  have hW0 : imgW ≠ 0 := ne_of_gt hW
  have hH0 : imgH ≠ 0 := ne_of_gt hH
  rcases tW with _ | x <;> rcases tH with _ | y
  · simp [resolveTarget, jsOr]
    field_simp
  · by_cases hy : y = 0
    · simp [resolveTarget, jsOr, hy]
      field_simp
    · simp [resolveTarget, jsOr, hy]
  · by_cases hx : x = 0
    · simp [resolveTarget, jsOr, hx]
      field_simp
    · simp [resolveTarget, jsOr, hx]
      field_simp
  · by_cases hx : x = 0 <;> by_cases hy : y = 0 <;>
      simp [resolveTarget, jsOr, hx, hy]
    · field_simp
    · field_simp
    · field_simp
      ring

/-- The width clamp preserves the aspect invariant in aspect-ratio mode. -/
theorem clampWidth_keeps_aspect (maxW : Option ℚ) (A : ℚ) (hA : A ≠ 0)
    (wh : ℚ × ℚ) (hwh : wh.1 = wh.2 * A) :
    (clampWidth maxW A true wh).1 = (clampWidth maxW A true wh).2 * A := by
  unfold clampWidth
  split_ifs with hc hm
  · field_simp
  · exact absurd rfl hm
  · exact hwh

/-- After the width clamp with a configured (truthy) `maxWidth`, the width
is at most `maxWidth`. -/
theorem clampWidth_fst_le (mw : ℚ) (hmw : mw ≠ 0) (A : ℚ) (mar : Bool)
    (wh : ℚ × ℚ) : (clampWidth (some mw) A mar wh).1 ≤ mw := by
  unfold clampWidth
  by_cases hc : jsTruthy (some mw) ∧ (some mw).getD 0 < wh.1
  · rw [if_pos hc]
    simp
  · rw [if_neg hc]
    rcases not_and_or.mp hc with h1 | h2
    · exact absurd hmw h1
    · exact le_of_not_lt h2

/-- After the height clamp with a configured (truthy) `maxHeight`, the
height is at most `maxHeight`. -/
theorem clampHeight_snd_le (mh : ℚ) (hmh : mh ≠ 0) (A : ℚ) (mar : Bool)
    (wh : ℚ × ℚ) : (clampHeight (some mh) A mar wh).2 ≤ mh := by
  unfold clampHeight
  by_cases hc : jsTruthy (some mh) ∧ (some mh).getD 0 < wh.2
  · rw [if_pos hc]
    simp
  · rw [if_neg hc]
    rcases not_and_or.mp hc with h1 | h2
    · exact absurd hmh h1
    · exact le_of_not_lt h2

/-- The height clamp never increases the width: in non-aspect mode it
leaves the width alone, and in aspect mode (given the aspect invariant
with positive aspect) the recomputed width `maxHeight * aspect` is smaller
than the incoming width. -/
theorem clampHeight_fst_le (maxH : Option ℚ) (A : ℚ) (hA : 0 < A)
    (mar : Bool) (wh : ℚ × ℚ) (hinv : mar = true → wh.1 = wh.2 * A) :
    (clampHeight maxH A mar wh).1 ≤ wh.1 := by
  cases mar with
  | false =>
    unfold clampHeight
    split_ifs with hc hm
    · exact absurd hm (by simp)
    · exact le_refl _
    · exact le_refl _
  | true =>
    unfold clampHeight
    split_ifs with hc hm
    · rw [hinv rfl]
      exact mul_le_mul_of_nonneg_right hc.2.le hA.le
    · exact absurd rfl hm
    · exact le_refl _

/-! ## Claim C2 -/

/-- C2: with `maintainAspectRatio` true, both targets given (truthy) and no
max clamps configured, the resolver computes
`ratio = min(targetW/sourceW, targetH/sourceH)` and returns
`(sourceW*ratio, sourceH*ratio)`; consequently the resolved width never
exceeds `targetW` and the resolved height never exceeds `targetH`. -/
theorem resolveDims_fit_inside (w h tw th : ℚ) (hw : 1 ≤ w) (hh : 1 ≤ h)
    (htw : tw ≠ 0) (hth : th ≠ 0) :
    resolveDims none none w h (some tw) (some th) true =
      (w * min (tw / w) (th / h), h * min (tw / w) (th / h)) ∧
    (resolveDims none none w h (some tw) (some th) true).1 ≤ tw ∧
    (resolveDims none none w h (some tw) (some th) true).2 ≤ th := by
  have hw0 : (0:ℚ) < w := lt_of_lt_of_le zero_lt_one hw
  have hh0 : (0:ℚ) < h := lt_of_lt_of_le zero_lt_one hh
  have heq : resolveDims none none w h (some tw) (some th) true =
      (w * min (tw / w) (th / h), h * min (tw / w) (th / h)) := by
    simp [resolveDims, clampWidth, clampHeight, resolveTarget, htw, hth]
  refine ⟨heq, ?_, ?_⟩
  · rw [heq]
    calc w * min (tw / w) (th / h) ≤ w * (tw / w) :=
        mul_le_mul_of_nonneg_left (min_le_left _ _) hw0.le
      _ = tw := by field_simp
  · rw [heq]
    calc h * min (tw / w) (th / h) ≤ h * (th / h) :=
        mul_le_mul_of_nonneg_left (min_le_right _ _) hh0.le
      _ = th := by field_simp

/-- C2 witness: source 4×3, targets 2 and 3; ratio is 1/2 and the result
(2, 3/2) fits inside the target box. -/
theorem resolveDims_fit_inside_witness :
    (resolveDims none none 4 3 (some 2) (some 3) true =
      (4 * min ((2:ℚ) / 4) ((3:ℚ) / 3), 3 * min ((2:ℚ) / 4) ((3:ℚ) / 3))) ∧
    (resolveDims none none 4 3 (some 2) (some 3) true).1 ≤ 2 ∧
    (resolveDims none none 4 3 (some 2) (some 3) true).2 ≤ 3 :=
  resolveDims_fit_inside 4 3 2 3 (by norm_num) (by norm_num) (by norm_num)
    (by norm_num)

/-! ## Claim C3 -/

/-- C3: for every source dimensions (positive), target request,
aspect-ratio flag and configured (truthy) `maxWidth`/`maxHeight`, the
resolved width never exceeds `maxWidth` and the resolved height never
exceeds `maxHeight`; and the computation is exactly the sequential
composition: resolve target, then width clamp, then height clamp applied
to the already width-adjusted pair. -/
theorem resolveDims_respects_max (maxW maxH : Option ℚ) (imgW imgH : ℚ)
    (tW tH : Option ℚ) (mar : Bool) (hW : 0 < imgW) (hH : 0 < imgH) :
    (∀ mw, maxW = some mw → mw ≠ 0 →
      (resolveDims maxW maxH imgW imgH tW tH mar).1 ≤ mw) ∧
    (∀ mh, maxH = some mh → mh ≠ 0 →
      (resolveDims maxW maxH imgW imgH tW tH mar).2 ≤ mh) ∧
    resolveDims maxW maxH imgW imgH tW tH mar =
      clampHeight maxH (imgW / imgH) mar
        (clampWidth maxW (imgW / imgH) mar (resolveTarget imgW imgH tW tH mar)) := by
  have hA : 0 < imgW / imgH := div_pos hW hH
  refine ⟨?_, ?_, rfl⟩
  · intro mw hmw hne
    subst hmw
    unfold resolveDims
    have hinv : mar = true →
        (clampWidth (some mw) (imgW / imgH) mar
          (resolveTarget imgW imgH tW tH mar)).1 =
        (clampWidth (some mw) (imgW / imgH) mar
          (resolveTarget imgW imgH tW tH mar)).2 * (imgW / imgH) := by
      intro hm
      subst hm
      exact clampWidth_keeps_aspect _ _ (ne_of_gt hA) _
        (resolveTarget_aspect imgW imgH hW hH tW tH)
    exact le_trans (clampHeight_fst_le maxH _ hA mar _ hinv)
      (clampWidth_fst_le mw hne _ mar _)
  · intro mh hmh hne
    subst hmh
    unfold resolveDims
    exact clampHeight_snd_le mh hne _ mar _

/-- C3 witness: source 100×80, maxes 50/40, aspect mode, no explicit
target: both bounds hold. -/
theorem resolveDims_respects_max_witness :
    (∀ mw, some 50 = some mw → mw ≠ 0 →
      (resolveDims (some 50) (some 40) 100 80 none none true).1 ≤ mw) ∧
    (∀ mh, some 40 = some mh → mh ≠ 0 →
      (resolveDims (some 50) (some 40) 100 80 none none true).2 ≤ mh) ∧
    resolveDims (some 50) (some 40) 100 80 none none true =
      clampHeight (some 40) ((100:ℚ) / 80) true
        (clampWidth (some 50) ((100:ℚ) / 80) true
          (resolveTarget 100 80 none none true)) :=
  resolveDims_respects_max (some 50) (some 40) 100 80 none none true
    (by norm_num) (by norm_num)

/-! ## Claim C8 -/

/-- C8: with a selected raster and `loading` false, `resizeImage` with both
`width` and `height` undefined fails with `InvalidArguments`, for either
value of `maintainAspectRatio`, leaving the state unchanged. -/
theorem resizeImage_both_undefined_invalidArgs (maxW maxH : Option ℚ)
    (st : Session) (img : Img) (mar : Bool)
    (hsel : st.selected = some img) (hload : st.loading = false) :
    resizeImage maxW maxH st none none mar = (st, ResizeResult.invalidArgs) := by
  simp [resizeImage, hsel, hload]

/-- C8 witness: the concrete ready session `st100`, both flag values. -/
theorem resizeImage_both_undefined_invalidArgs_witness :
    resizeImage none none st100 none none true = (st100, ResizeResult.invalidArgs) ∧
    resizeImage none none st100 none none false = (st100, ResizeResult.invalidArgs) :=
  ⟨resizeImage_both_undefined_invalidArgs none none st100 img100 true rfl rfl,
    resizeImage_both_undefined_invalidArgs none none st100 img100 false rfl rfl⟩

/-! ## Claim C6 -/

/-- C6: with a configured (nonzero) `maxFileSize` and a declared size
strictly above it, `selectImage` fails with `FileTooLarge`, performs no
decode (empty event list), and `selected`/`original` remain what they
were before the call. -/
theorem selectImage_fileTooLarge (m size : ℚ) (maxW maxH : Option ℚ)
    (st : Session) (raw : Img) (cloneOk : Bool)
    (hm : m ≠ 0) (hgt : m < size) :
    selectImage (mkMax (some m)) maxW maxH st size raw cloneOk =
      ({ st with loading := false }, some SelectErr.fileTooLarge, []) ∧
    ({ st with loading := false } : Session).selected = st.selected ∧
    ({ st with loading := false } : Session).original = st.original := by
  have hmk : mkMax (some m) = some m := by simp [mkMax, hm]
  have hv : isValidFileSize (mkMax (some m)) size = false := by
    rw [hmk]
    unfold isValidFileSize
    simp only [jsTruthy_some, Option.getD_some]
    rw [if_pos hm]
    exact decide_eq_false (not_le.mpr hgt)
  refine ⟨?_, rfl, rfl⟩
  simp [selectImage, hv]

/-- C6 witness: limit 10, declared size 11, on the ready session `st100`. -/
theorem selectImage_fileTooLarge_witness :
    (selectImage (mkMax (some 10)) none none st100 11 img100 true =
      ({ st100 with loading := false }, some SelectErr.fileTooLarge, [])) ∧
    ({ st100 with loading := false } : Session).selected = st100.selected ∧
    ({ st100 with loading := false } : Session).original = st100.original :=
  selectImage_fileTooLarge 10 11 none none st100 img100 true (by norm_num)
    (by norm_num)

/-! ## Claim C7 -/

/-- C7: the code does clamp `cropWidth = min(width, selected.width - left)`
and `cropHeight = min(height, selected.height - top)`, but it does not
reject a negative `top`: on a 100×100 selected raster,
`cropImage({top: -10, left: 0, width: 50, height: 50})` is accepted and
produces a cropped image (no `InvalidArguments` failure), contradicting
the spec's mandated rejection. -/
theorem cropImage_accepts_negative_top :
    cropImage st100 (-10) 0 50 50 true =
      ({ st100 with selected := some cropNeg }, CropResult.cropped cropNeg) := by
  simp [cropImage, st100, img100, cropNeg]
  norm_num

/-! ## Claim C4 -/

/-- A single `resizeImage`/`cropImage` call never changes `original` or
`loading`, whatever its arguments and outcome. -/
theorem applyOp_preserves (maxW maxH : Option ℚ) (st : Session)
    (op : SessionOp) :
    (applyOp maxW maxH st op).original = st.original ∧
    (applyOp maxW maxH st op).loading = st.loading := by
  cases op with
  | resize w h mar =>
    unfold applyOp resizeImage
    cases hsel : st.selected with
    | none => exact ⟨rfl, rfl⟩
    | some img =>
      simp only []
      split_ifs <;> exact ⟨rfl, rfl⟩
  | crop t l w h ok =>
    unfold applyOp cropImage
    cases hsel : st.selected with
    | none => exact ⟨rfl, rfl⟩
    | some img =>
      simp only []
      split_ifs <;> exact ⟨rfl, rfl⟩

/-- A whole sequence of `resizeImage`/`cropImage` calls never changes
`original` or `loading`. -/
theorem applyOps_preserves (maxW maxH : Option ℚ) (ops : List SessionOp) :
    ∀ st : Session, (applyOps maxW maxH st ops).original = st.original ∧
      (applyOps maxW maxH st ops).loading = st.loading := by
  induction ops with
  | nil => intro st; exact ⟨rfl, rfl⟩
  | cons op rest ih =>
    intro st
    unfold applyOps at ih ⊢
    simp only [List.foldl_cons]
    have h1 := applyOp_preserves maxW maxH st op
    have h2 := ih (applyOp maxW maxH st op)
    exact ⟨h2.1.trans h1.1, h2.2.trans h1.2⟩

/-- C4: after any finite sequence of `resizeImage`/`cropImage` calls the
`original` raster (and the loading flag) is untouched, and a subsequent
successful `restoreOriginalImage` sets `selected` to a clone of
`original`, whose pixel content equals the raster stored at load time,
independent of the intervening calls. -/
theorem restore_after_ops (maxW maxH : Option ℚ) (st : Session)
    (ops : List SessionOp) (o : Img) (ho : st.original = some o) :
    (applyOps maxW maxH st ops).original = some o ∧
    (applyOps maxW maxH st ops).loading = st.loading ∧
    (restoreOriginalImage (applyOps maxW maxH st ops) true).1.selected =
      some (cloneImage o) ∧
    (cloneImage o).pix = o.pix := by
  have hp := applyOps_preserves maxW maxH ops st
  have horig : (applyOps maxW maxH st ops).original = some o := hp.1.trans ho
  refine ⟨horig, hp.2, ?_, rfl⟩
  simp [restoreOriginalImage, horig]

/-- C4 witness: the ready session `st100`, one resize and one crop, then
restore. -/
theorem restore_after_ops_witness :
    (applyOps none none st100 ops0).original = some img100 ∧
    (applyOps none none st100 ops0).loading = st100.loading ∧
    (restoreOriginalImage (applyOps none none st100 ops0) true).1.selected =
      some (cloneImage img100) ∧
    (cloneImage img100).pix = img100.pix :=
  restore_after_ops none none st100 ops0 img100 rfl

/-! ## Claim C5 -/

/-- With no targets and no configured maxes, the initial-load
`resizeImageIfNeeded` is the identity (the resolved dimensions equal the
source and the 1-pixel tolerance skips scaling). -/
theorem resizeIfNeeded_no_targets (img : Img) :
    resizeImageIfNeeded none none img none none true = img := by
  simp [resizeImageIfNeeded, resolveDims, resolveTarget, clampWidth, clampHeight]

/-- C5 counterexample: on a ready session holding `img100`, a `selectImage`
whose clone step fails leaves the session half-updated: `selected` holds
the newly decoded image while `original` still holds the previous one, and
the call reports the failure — `selected`/`original` were not replaced
atomically after a fully successful pipeline. -/
theorem selectImage_clone_failure_half_update :
    (selectImage none none none st100 5 imgB false).1.selected = some imgB ∧
    (selectImage none none none st100 5 imgB false).1.original = some img100 ∧
    (selectImage none none none st100 5 imgB false).2.1 = some SelectErr.cloneFailed ∧
    imgB ≠ img100 := by
  have hno : resizeImageIfNeeded none none imgB none none true = imgB :=
    resizeIfNeeded_no_targets imgB
  refine ⟨?_, ?_, ?_, ?_⟩
  · simp [selectImage, isValidFileSize, hno, st100]
  · simp [selectImage, isValidFileSize, hno, st100]
  · simp [selectImage, isValidFileSize, hno, st100]
  · norm_num [imgB, img100, Img.mk.injEq]

/-- C5 (amended): `resizeImage`, `cropImage` and `restoreOriginalImage` are
atomic: each either leaves the session exactly as it was (every guard or
mid-pipeline failure) or replaces only `selected` after its full pipeline
succeeded.  `selectImage` is not: after a successful size check and decode
it assigns `selected` first, and when the subsequent clone step fails the
call ends with `selected` holding the new image while `original` still
holds the previous one. -/
theorem operations_atomic_except_selectImage (maxW maxH mfs : Option ℚ)
    (st : Session) (w h : Option ℚ) (mar : Bool) (t l cw ch size : ℚ)
    (ok : Bool) (raw : Img)
    (hsize : isValidFileSize mfs size = true) :
    ((resizeImage maxW maxH st w h mar).1 = st ∨
      ∃ i, (resizeImage maxW maxH st w h mar).2 = ResizeResult.resized i ∧
        (resizeImage maxW maxH st w h mar).1 = { st with selected := some i }) ∧
    ((cropImage st t l cw ch ok).1 = st ∨
      ∃ i, (cropImage st t l cw ch ok).2 = CropResult.cropped i ∧
        (cropImage st t l cw ch ok).1 = { st with selected := some i }) ∧
    ((restoreOriginalImage st ok).1 = st ∨
      ∃ i, (restoreOriginalImage st ok).2 = RestoreResult.restored i ∧
        (restoreOriginalImage st ok).1 = { st with selected := some i }) ∧
    (selectImage mfs maxW maxH st size raw false).1 =
      { st with
          selected := some (resizeImageIfNeeded maxW maxH raw none none true)
          loading := false } ∧
    (selectImage mfs maxW maxH st size raw false).2.1 = some SelectErr.cloneFailed := by
  refine ⟨?_, ?_, ?_, ?_, ?_⟩
  · unfold resizeImage
    cases hsel : st.selected with
    | none => exact Or.inl rfl
    | some img =>
      simp only []
      split_ifs with h1 h2
      · exact Or.inl rfl
      · exact Or.inl rfl
      · exact Or.inr ⟨_, rfl, rfl⟩
  · unfold cropImage
    cases hsel : st.selected with
    | none => exact Or.inl rfl
    | some img =>
      simp only []
      split_ifs with h1 h2
      · exact Or.inl rfl
      · exact Or.inr ⟨_, rfl, rfl⟩
      · exact Or.inl rfl
  · unfold restoreOriginalImage
    cases horig : st.original with
    | none => exact Or.inl rfl
    | some o =>
      simp only []
      split_ifs with h1
      · exact Or.inr ⟨_, rfl, rfl⟩
      · exact Or.inl rfl
  · unfold selectImage
    rw [if_pos hsize]
    simp
  · unfold selectImage
    rw [if_pos hsize]
    simp

/-- C5 witness: the amended claim at concrete arguments on `st100`. -/
theorem operations_atomic_except_selectImage_witness :
    ((resizeImage none none st100 (some 50) none false).1 = st100 ∨
      ∃ i, (resizeImage none none st100 (some 50) none false).2 = ResizeResult.resized i ∧
        (resizeImage none none st100 (some 50) none false).1 = { st100 with selected := some i }) ∧
    ((cropImage st100 0 0 10 10 true).1 = st100 ∨
      ∃ i, (cropImage st100 0 0 10 10 true).2 = CropResult.cropped i ∧
        (cropImage st100 0 0 10 10 true).1 = { st100 with selected := some i }) ∧
    ((restoreOriginalImage st100 true).1 = st100 ∨
      ∃ i, (restoreOriginalImage st100 true).2 = RestoreResult.restored i ∧
        (restoreOriginalImage st100 true).1 = { st100 with selected := some i }) ∧
    (selectImage none none none st100 5 imgB false).1 =
      { st100 with
          selected := some (resizeImageIfNeeded none none imgB none none true)
          loading := false } ∧
    (selectImage none none none st100 5 imgB false).2.1 = some SelectErr.cloneFailed :=
  operations_atomic_except_selectImage none none none st100 (some 50) none false
    0 0 10 10 5 true imgB rfl

/-! ## Claim C10 -/

/-- A target of `some 0` behaves exactly like an absent target throughout
the resolution chain (width position). -/
theorem resolveTarget_zero_width (imgW imgH : ℚ) (tO : Option ℚ) (mar : Bool) :
    resolveTarget imgW imgH (some 0) tO mar = resolveTarget imgW imgH none tO mar := by
  simp [resolveTarget, jsOr]

/-- A target of `some 0` behaves exactly like an absent target throughout
the resolution chain (height position). -/
theorem resolveTarget_zero_height (imgW imgH : ℚ) (tO : Option ℚ) (mar : Bool) :
    resolveTarget imgW imgH tO (some 0) mar = resolveTarget imgW imgH tO none mar := by
  simp [resolveTarget, jsOr]

/-- `resolveDims` treats a zero width target as absent. -/
theorem resolveDims_zero_width (maxW maxH : Option ℚ) (imgW imgH : ℚ)
    (tO : Option ℚ) (mar : Bool) :
    resolveDims maxW maxH imgW imgH (some 0) tO mar =
      resolveDims maxW maxH imgW imgH none tO mar := by
  unfold resolveDims
  rw [resolveTarget_zero_width]

/-- `resolveDims` treats a zero height target as absent. -/
theorem resolveDims_zero_height (maxW maxH : Option ℚ) (imgW imgH : ℚ)
    (tO : Option ℚ) (mar : Bool) :
    resolveDims maxW maxH imgW imgH tO (some 0) mar =
      resolveDims maxW maxH imgW imgH tO none mar := by
  unfold resolveDims
  rw [resolveTarget_zero_height]

/-- In non-aspect mode, a zero width target resolves like the image's own
width (the literal `targetWidth || img.width` substitution). -/
theorem resizeIfNeeded_zero_width (maxW maxH : Option ℚ) (img : Img)
    (tH : Option ℚ) :
    resizeImageIfNeeded maxW maxH img (some 0) tH false =
      resizeImageIfNeeded maxW maxH img (some img.width) tH false := by
  unfold resizeImageIfNeeded
  have h2 : resolveTarget img.width img.height (some 0) tH false =
      resolveTarget img.width img.height (some img.width) tH false := by
    simp [resolveTarget, jsOr]
  unfold resolveDims
  rw [h2]

/-- In non-aspect mode, a zero height target resolves like the image's own
height. -/
theorem resizeIfNeeded_zero_height (maxW maxH : Option ℚ) (img : Img)
    (tW : Option ℚ) :
    resizeImageIfNeeded maxW maxH img tW (some 0) false =
      resizeImageIfNeeded maxW maxH img tW (some img.height) false := by
  unfold resizeImageIfNeeded
  have h2 : resolveTarget img.width img.height tW (some 0) false =
      resolveTarget img.width img.height tW (some img.height) false := by
    simp [resolveTarget, jsOr]
  unfold resolveDims
  rw [h2]

/-- When the resolved dimensions exceed the 1-pixel tolerance,
`resizeImageIfNeeded` resamples via `stepDownImage`. -/
theorem resizeIfNeeded_scales (maxW maxH : Option ℚ) (img : Img)
    (tW tH : Option ℚ) (mar : Bool) (a b : ℚ)
    (hrd : resolveDims maxW maxH img.width img.height tW tH mar = (a, b))
    (hcond : 1 < |a - img.width| ∨ 1 < |b - img.height|) :
    resizeImageIfNeeded maxW maxH img tW tH mar =
      ⟨(stepDownDims img.width img.height a b).1,
        (stepDownDims img.width img.height a b).2,
        Pix.resampled img.pix (stepDownDims img.width img.height a b).1
          (stepDownDims img.width img.height a b).2⟩ := by
  unfold resizeImageIfNeeded
  rw [hrd]
  exact if_pos hcond

/-- When the resolved dimensions are within the 1-pixel tolerance,
`resizeImageIfNeeded` returns the image unchanged. -/
theorem resizeIfNeeded_noop (maxW maxH : Option ℚ) (img : Img)
    (tW tH : Option ℚ) (mar : Bool) (a b : ℚ)
    (hrd : resolveDims maxW maxH img.width img.height tW tH mar = (a, b))
    (hcond : ¬(1 < |a - img.width| ∨ 1 < |b - img.height|)) :
    resizeImageIfNeeded maxW maxH img tW tH mar = img := by
  unfold resizeImageIfNeeded
  rw [hrd]
  exact if_neg hcond

/-- C10 counterexample: on the 100×100 raster with `maintainAspectRatio`
true, `resizeImage({width: 0, height: 200})` does not substitute the
raster's width (100) for the zero: the zero is falsy, the height-only
aspect branch runs, and the image is resized to 200×200; with `width: 100`
substituted explicitly, the fit-inside ratio is 1 and the raster is kept
at 100×100.  The two calls differ. -/
theorem resizeImage_zero_width_not_substitution :
    (resizeImage none none st100 (some 0) (some 200) true).1.selected = some img200 ∧
    (resizeImage none none st100 (some 100) (some 200) true).1.selected = some img100 ∧
    img200 ≠ img100 := by
  have hsd : stepDownDims 100 100 200 200 = (200, 200) :=
    stepDownDims_eq 100 100 200 200 (by norm_num) (by norm_num)
  have hrd1 : resolveDims none none img100.width img100.height
      (some 0) (some 200) true = (200, 200) := by
    norm_num [resolveDims, resolveTarget, clampWidth, clampHeight, jsOr, img100]
  have habs : (1:ℚ) < |(200:ℚ) - 100| := by
    rw [show (200:ℚ) - 100 = 100 by norm_num,
      abs_of_nonneg (show (0:ℚ) ≤ 100 by norm_num)]
    norm_num
  have h1 : resizeImageIfNeeded none none img100 (some 0) (some 200) true = img200 := by
    have hs := resizeIfNeeded_scales none none img100 (some 0) (some 200) true
      200 200 hrd1 (Or.inl habs)
    rw [hs, show img100.width = (100:ℚ) from rfl, show img100.height = (100:ℚ) from rfl,
      hsd]
    rfl
  have hrd2 : resolveDims none none img100.width img100.height
      (some 100) (some 200) true = (100, 100) := by
    norm_num [resolveDims, resolveTarget, clampWidth, clampHeight, jsOr, img100, min_def]
  have h2 : resizeImageIfNeeded none none img100 (some 100) (some 200) true = img100 := by
    apply resizeIfNeeded_noop none none img100 (some 100) (some 200) true 100 100 hrd2
    rw [show img100.width = (100:ℚ) from rfl, show img100.height = (100:ℚ) from rfl]
    norm_num
  refine ⟨?_, ?_, ?_⟩
  · simp [resizeImage, st100, h1]
  · simp [resizeImage, st100, h2]
  · norm_num [img200, img100, Img.mk.injEq]

/-- C10 (amended): the numeric value 0 is treated as falsy/absent, not as
a constraint: a configuration field of 0 is stored as unset (any file size
accepted, no clamp); a `resizeImage` call with `width = 0` or `height = 0`
does not fail; inside the resolver a zero target behaves exactly like an
absent one — which in non-aspect mode amounts to substituting the current
raster's dimension for the zero, but in aspect-ratio mode lets the other
dimension drive the aspect computation, which can differ from substituting
the raster's dimension. -/
theorem zero_treated_as_absent (maxW maxH : Option ℚ) (st : Session)
    (img : Img) (imgW imgH : ℚ) (tO : Option ℚ) (mar : Bool) (s : ℚ)
    (hsel : st.selected = some img) (hload : st.loading = false) :
    isValidFileSize (mkMax (some 0)) s = true ∧
    mkMax (some 0) = none ∧
    resolveDims maxW maxH imgW imgH (some 0) tO mar =
      resolveDims maxW maxH imgW imgH none tO mar ∧
    resolveDims maxW maxH imgW imgH tO (some 0) mar =
      resolveDims maxW maxH imgW imgH tO none mar ∧
    (∃ i, (resizeImage maxW maxH st (some 0) tO mar).2 = ResizeResult.resized i) ∧
    (∃ j, (resizeImage maxW maxH st tO (some 0) mar).2 = ResizeResult.resized j) ∧
    resizeImage maxW maxH st (some 0) tO false =
      resizeImage maxW maxH st (some img.width) tO false ∧
    resizeImage maxW maxH st tO (some 0) false =
      resizeImage maxW maxH st tO (some img.height) false := by
  refine ⟨by simp [mkMax, isValidFileSize], by simp [mkMax],
    resolveDims_zero_width maxW maxH imgW imgH tO mar,
    resolveDims_zero_height maxW maxH imgW imgH tO mar, ?_, ?_, ?_, ?_⟩
  · exact ⟨resizeImageIfNeeded maxW maxH img (some 0)
      (some (tO.getD img.height)) mar, by simp [resizeImage, hsel, hload]⟩
  · exact ⟨resizeImageIfNeeded maxW maxH img (some (tO.getD img.width))
      (some 0) mar, by simp [resizeImage, hsel, hload]⟩
  · have hz := resizeIfNeeded_zero_width maxW maxH img (some (tO.getD img.height))
    simp [resizeImage, hsel, hload, hz]
  · have hz := resizeIfNeeded_zero_height maxW maxH img (some (tO.getD img.width))
    simp [resizeImage, hsel, hload, hz]

/-- C10 witness: the amended claim at concrete arguments on `st100`. -/
theorem zero_treated_as_absent_witness :
    isValidFileSize (mkMax (some 0)) 7 = true ∧
    mkMax (some 0) = none ∧
    resolveDims none none 77 88 (some 0) (some 150) true =
      resolveDims none none 77 88 none (some 150) true ∧
    resolveDims none none 77 88 (some 150) (some 0) true =
      resolveDims none none 77 88 (some 150) none true ∧
    (∃ i, (resizeImage none none st100 (some 0) (some 150) true).2 =
      ResizeResult.resized i) ∧
    (∃ j, (resizeImage none none st100 (some 150) (some 0) true).2 =
      ResizeResult.resized j) ∧
    resizeImage none none st100 (some 0) (some 150) false =
      resizeImage none none st100 (some img100.width) (some 150) false ∧
    resizeImage none none st100 (some 150) (some 0) false =
      resizeImage none none st100 (some 150) (some img100.height) false :=
  zero_treated_as_absent none none st100 img100 77 88 (some 150) true 7 rfl rfl

end ImageUploader
